import Mathlib

/-!
Verification of the TaskFlow single-page task-management client
(`src/app.js`) against its natural-language specification.

The file shallowly embeds the client-side logic of `src/app.js`:

* a small dynamic model of JavaScript values (`JSVal`) and of JS task
  objects (`JS.JSTask`) for the two conversion functions `normalizeTask`
  and `taskToPayload`, whose behaviour depends on JS truthiness and on
  the exact field names of the objects involved;
* a typed model (`CTask`, `Category`, `WireTask`, `WireCategory`) of the
  client and wire representations, together with the derived-view
  computation `visibleTasks`, the aggregate counts, the date helpers,
  the HTTP-client wrapper `request` and the API mutation handlers.

External effects (the network, `localStorage`, the hash router) are made
explicit: the response of a `fetch` is an input (`HttpResp`, or an
`Except` outcome for whole-operation success/failure), and persistent
client state is threaded as `ClientState` / `AppState` values.
-/

/- ===================== JS dynamic value model ===================== -/

/-- A JavaScript value as it occurs in the task objects of `src/app.js`:
a string, an integral number, `NaN`, or `null`.  An absent field
(`undefined`) is modelled as `Option.none` at use sites. -/
inductive JSVal where
  | vstr : String → JSVal
  | vnum : Int → JSVal
  | vnan : JSVal
  | vnull : JSVal
deriving DecidableEq, Repr

/-- JS truthiness of a value: `""`, `0`, `NaN` and `null` are falsy. -/
def JSVal.truthy : JSVal → Bool
  | .vstr s => !s.isEmpty
  | .vnum n => decide (n ≠ 0)
  | .vnan => false
  | .vnull => false

/-- JS truthiness of a possibly absent value (`undefined` is falsy). -/
def jsTruthy : Option JSVal → Bool
  | none => false
  | some v => v.truthy

/-- The JS expression `x || d`: `x` if truthy, otherwise the default `d`. -/
def jsOr (x : Option JSVal) (d : JSVal) : JSVal :=
  match x with
  | some v => if v.truthy then v else d
  | none => d

/-- The JS conversion `String(x)` on the values of our model. -/
def jsString : Option JSVal → String
  | some (.vstr s) => s
  | some (.vnum n) => toString n
  | some .vnan => "NaN"
  | some .vnull => "null"
  | none => "undefined"

/-- Numeric value of a list of decimal digit characters. -/
def digitsVal (cs : List Char) : Nat :=
  cs.foldl (fun a c => a * 10 + (c.toNat - 48)) 0

/-- The JS function `parseInt` restricted to the base-10 behaviour used in
`src/app.js` (`parseInt(form.category)`): skip leading whitespace, read an
optional sign and then the longest digit prefix; `NaN` if there is none. -/
def jsParseInt (s : String) : JSVal :=
  let cs := s.toList.dropWhile (·.isWhitespace)
  match cs with
  | '-' :: rest =>
      let ds := rest.takeWhile (·.isDigit)
      if ds.isEmpty then JSVal.vnan else JSVal.vnum (-(digitsVal ds : Int))
  | '+' :: rest =>
      let ds := rest.takeWhile (·.isDigit)
      if ds.isEmpty then JSVal.vnan else JSVal.vnum (digitsVal ds : Int)
  | _ =>
      let ds := cs.takeWhile (·.isDigit)
      if ds.isEmpty then JSVal.vnan else JSVal.vnum (digitsVal ds : Int)

/- ===================== calendar dates ===================== -/

/-- Days between a civil date and 1970-01-01 (proleptic Gregorian), the
standard era-based algorithm, computed in `Nat` by shifting the year by
400 and subtracting the 146097 days of one 400-year era at the end. -/
def daysFromCivil (y m d : Nat) : Int :=
  let y := y + 400
  let y := if m ≤ 2 then y - 1 else y
  let era := y / 400
  let yoe := y - era * 400
  let mp := (m + 9) % 12
  let doy := (153 * mp + 2) / 5 + (d - 1)
  let doe := yoe * 365 + yoe / 4 - yoe / 100 + doy
  (era * 146097 + doe : Int) - 719468 - 146097

/-- Parse a `YYYY-MM-DD` string into (year, month, day); `none` unless the
string is exactly ten characters in that shape with month in 1..12 and
day in 1..31. -/
def parseYMD (s : String) : Option (Nat × Nat × Nat) :=
  match s.toList with
  | [y1, y2, y3, y4, h1, m1, m2, h2, d1, d2] =>
    if y1.isDigit && y2.isDigit && y3.isDigit && y4.isDigit &&
       (h1 == '-') && m1.isDigit && m2.isDigit && (h2 == '-') &&
       d1.isDigit && d2.isDigit then
      let y := digitsVal [y1, y2, y3, y4]
      let m := digitsVal [m1, m2]
      let d := digitsVal [d1, d2]
      if 1 ≤ m && m ≤ 12 && 1 ≤ d && d ≤ 31 then some (y, m, d) else none
    else none
  | _ => none

/-- Epoch milliseconds of midnight of a `YYYY-MM-DD` string; `none` models
an invalid JS `Date` (`NaN` timestamp).  This models
`new Date(s + 'T00:00:00').getTime()` from `src/app.js` with the local
timezone taken as UTC; the claims under verification never depend on the
timezone offset, only on differences and ordering of these timestamps. -/
def dateOnlyMs (s : String) : Option Int :=
  (parseYMD s).map (fun x => daysFromCivil x.1 x.2.1 x.2.2 * 86400000)

/-- Models `new Date(x).getTime()` as used on `created_at` fields:
`undefined` and unparseable strings give `NaN`, `null` gives `0`, numbers
pass through, and a string is parsed by its `YYYY-MM-DD` prefix (the
time-of-day part is ignored; no claim depends on the parsed value, only
on whether it is a number or `NaN`). -/
def jsDateGetTime : Option JSVal → JSVal
  | none => JSVal.vnan
  | some .vnull => JSVal.vnum 0
  | some .vnan => JSVal.vnan
  | some (.vnum n) => JSVal.vnum n
  | some (.vstr s) =>
      match dateOnlyMs (s.take 10) with
      | some ms => JSVal.vnum ms
      | none => JSVal.vnan

/- ===================== date helper functions (src/app.js 74-86) ===================== -/

/-- `isOverdue(s)` from `src/app.js`: `!!(s && s < today())`.  The current
date string `today()` is passed explicitly as `td`. -/
def isOverdue (td s : String) : Bool := !s.isEmpty && decide (s < td)

/-- `isToday(s)` from `src/app.js`: `s === today()`. -/
def isToday (td s : String) : Bool := s == td

/-- `isSoon(s)` from `src/app.js`:

  if (!s) return false;
  const d = (new Date(s + 'T00:00:00') - new Date()) / 86400000;
  return d >= 0 && d <= 2;

The current time `new Date()` is the explicit parameter `nowMs`; the real
division by 86400000 is eliminated (for a non-`NaN` difference `diff`,
`diff / 86400000 >= 0` iff `0 <= diff` and `diff / 86400000 <= 2` iff
`diff <= 2 * 86400000`).  An unparseable date gives `NaN`, and both float
comparisons on `NaN` are false, hence the `none` branch. -/
def isSoon (s : String) (nowMs : Int) : Bool :=
  if s = "" then false
  else
    match dateOnlyMs s with
    | none => false
    | some ms => decide (0 ≤ ms - nowMs) && decide (ms - nowMs ≤ 2 * 86400000)

/-- JS `s.trim()`: a string with leading and trailing whitespace
removed, computed on the character list (the JS whitespace set is
modelled by `Char.isWhitespace`). -/
def jsTrim (s : String) : String :=
  ⟨((s.data.dropWhile (·.isWhitespace)).reverse.dropWhile (·.isWhitespace)).reverse⟩

/- ===================== JS object model of the conversions ===================== -/

namespace JS

/-- A JS task-like object: any object that can flow through
`normalizeTask` or `taskToPayload`.  Each field is `none` when the key is
absent (`undefined`).  The wire shape uses `category_id` / `due_date` /
`created_at`, the normalized client shape uses `category` / `due` /
`createdAt`; both shapes live in this one type, exactly as both are plain
objects in JS. -/
structure JSTask where
  id : Option JSVal := none
  title : Option JSVal := none
  desc : Option JSVal := none
  category_id : Option JSVal := none
  category : Option JSVal := none
  priority : Option JSVal := none
  status : Option JSVal := none
  due_date : Option JSVal := none
  due : Option JSVal := none
  created_at : Option JSVal := none
  createdAt : Option JSVal := none
deriving DecidableEq, Repr

/-- `normalizeTask` from `src/app.js` (lines 38-49):

  return {
    id:        String(t.id),
    title:     t.title,
    desc:      t.desc || '',
    category:  t.category_id ? String(t.category_id) : '',
    priority:  t.priority  || 'medium',
    status:    t.status    || 'pending',
    due:       t.due_date  || '',
    createdAt: new Date(t.created_at).getTime(),
  };
-/
def normalizeTask (t : JSTask) : JSTask :=
  { id := some (JSVal.vstr (jsString t.id)),
    title := t.title,
    desc := some (jsOr t.desc (JSVal.vstr "")),
    category := some (if jsTruthy t.category_id
      then JSVal.vstr (jsString t.category_id) else JSVal.vstr ""),
    priority := some (jsOr t.priority (JSVal.vstr "medium")),
    status := some (jsOr t.status (JSVal.vstr "pending")),
    due := some (jsOr t.due_date (JSVal.vstr "")),
    createdAt := some (jsDateGetTime t.created_at) }

/-- `taskToPayload` from `src/app.js` (lines 55-64):

  return {
    title:       form.title.trim(),
    desc:        form.desc || '',
    category_id: form.category ? parseInt(form.category) : null,
    priority:    form.priority,
    status:      form.status,
    due_date:    form.due || null,
  };

`form.title.trim()` throws a `TypeError` unless `form.title` is a string,
hence the `Option` result. -/
def taskToPayload (form : JSTask) : Option JSTask :=
  match form.title with
  | some (JSVal.vstr s) =>
      some { title := some (JSVal.vstr (jsTrim s)),
             desc := some (jsOr form.desc (JSVal.vstr "")),
             category_id := some (if jsTruthy form.category
               then jsParseInt (jsString form.category) else JSVal.vnull),
             priority := form.priority,
             status := form.status,
             due_date := some (jsOr form.due JSVal.vnull) }
  | _ => none

end JS

/- ===================== typed client / wire model ===================== -/

/-- The normalized client representation of a task (spec section 3).
`createdAt` is `none` when `new Date(created_at).getTime()` was `NaN`. -/
structure CTask where
  id : String
  title : String
  desc : String
  category : String
  priority : String
  status : String
  due : String
  createdAt : Option Int
deriving DecidableEq, Repr

/-- The normalized client representation of a category. -/
structure Category where
  id : String
  name : String
  color : String
deriving DecidableEq, Repr

/-- A wire task as described by the API contract (spec section 6):
`id` a number, `title` a string, `desc` optional, `category_id` a number
or null, `priority`/`status` strings (possibly absent), `due_date` a date
string or null, `created_at` a timestamp string. -/
structure WireTask where
  id : Int
  title : String
  desc : Option String
  category_id : Option Int
  priority : Option String
  status : Option String
  due_date : Option String
  created_at : String
deriving DecidableEq, Repr

/-- A wire category: numeric id, name, color. -/
structure WireCategory where
  id : Int
  name : String
  color : String
deriving DecidableEq, Repr

/-- The JS pattern `x || d` for an optional string against a string
default: `null`/absent and `""` give the default. -/
def jsOrS (x : Option String) (d : String) : String :=
  match x with
  | some s => if s = "" then d else s
  | none => d

/-- `normalizeTask` on the typed wire representation (same source lines
38-49 as `JS.normalizeTask`, specialised to inputs of the wire shape).
The truthiness test `t.category_id ?` is false for `0` and `null`. -/
def normalizeTaskW (t : WireTask) : CTask :=
  { id := toString t.id,
    title := t.title,
    desc := jsOrS t.desc "",
    category := match t.category_id with
      | some n => if n = 0 then "" else toString n
      | none => "",
    priority := jsOrS t.priority "medium",
    status := jsOrS t.status "pending",
    due := jsOrS t.due_date "",
    createdAt := dateOnlyMs (t.created_at.take 10) }

/-- `normalizeCat` from `src/app.js` (lines 51-53):
`{ id: String(c.id), name: c.name, color: c.color }`. -/
def normalizeCat (c : WireCategory) : Category :=
  { id := toString c.id, name := c.name, color := c.color }

/- ===================== derived view (src/app.js 564-584) ===================== -/

/-- JS `s.includes(q)`: substring containment. -/
def strIncludes (s q : String) : Bool := decide (q.data <:+: s.data)

/-- The priority rank object `{high:0, medium:1, low:2}`; `none` models a
lookup of a key that is not present (`undefined`). -/
def prioRank (p : String) : Option Int :=
  if p = "high" then some 0
  else if p = "medium" then some 1
  else if p = "low" then some 2
  else none

/-- JS subtraction of two possibly-`NaN` numbers as consumed by
`Array.prototype.sort`: per ECMA-262 SortCompare, a comparator result of
`NaN` is treated as `+0`. -/
def jsNumCmp : Option Int → Option Int → Int
  | some x, some y => x - y
  | _, _ => 0

/-- Sign of `a.localeCompare(b)` for the `YYYY-MM-DD` strings compared in
`src/app.js`: plain lexicographic comparison. -/
def strCmp (a b : String) : Int :=
  if a < b then -1 else if b < a then 1 else 0

/-- The sort comparator of `visibleTasks` (src/app.js lines 575-582):

  if (sortBy === 'created_desc') return b.createdAt - a.createdAt;
  if (sortBy === 'created_asc')  return a.createdAt - b.createdAt;
  if (sortBy === 'due_asc')  { if (!a.due) return 1; if (!b.due) return -1; return a.due.localeCompare(b.due); }
  if (sortBy === 'due_desc') { if (!a.due) return 1; if (!b.due) return -1; return b.due.localeCompare(a.due); }
  if (sortBy === 'priority') { const o={high:0,medium:1,low:2}; return o[a.priority]-o[b.priority]; }
  return 0;
-/
def taskCmp (sortKey : String) (a b : CTask) : Int :=
  if sortKey = "created_desc" then jsNumCmp b.createdAt a.createdAt
  else if sortKey = "created_asc" then jsNumCmp a.createdAt b.createdAt
  else if sortKey = "due_asc" then
    (if a.due = "" then 1 else if b.due = "" then -1 else strCmp a.due b.due)
  else if sortKey = "due_desc" then
    (if a.due = "" then 1 else if b.due = "" then -1 else strCmp b.due a.due)
  else if sortKey = "priority" then
    jsNumCmp (prioRank a.priority) (prioRank b.priority)
  else 0

/-- `list.sort(cmp)` of JS, modelled as a stable comparison sort placing
`a` before `b` whenever `cmp a b <= 0`.  ECMA-262 only pins the result
down for consistent comparators; this fixes insertion sort as the
concrete realization. -/
def jsSort {α : Type} (cmp : α → α → Int) (l : List α) : List α :=
  l.insertionSort (fun a b => cmp a b ≤ 0)

/-- `visibleTasks` from `src/app.js` (lines 564-584).  The reactive inputs
`filter`, `priorityF`, `searchQ`, `sortBy` and the current date string
`today()` are explicit parameters. -/
def visibleTasks (tasks : List CTask) (filterV priorityF searchQ sortKey td : String) :
    List CTask :=
  let list := tasks
  let list :=
    if filterV = "today" then list.filter (fun t => isToday td t.due)
    else if filterV = "pending" then list.filter (fun t => t.status == "pending")
    else if filterV = "done" then list.filter (fun t => t.status == "done")
    else if filterV ≠ "all" then list.filter (fun t => t.category == filterV)
    else list
  let list :=
    if priorityF ≠ "all" then list.filter (fun t => t.priority == priorityF) else list
  let list :=
    if searchQ ≠ "" then
      let q := searchQ.toLower
      list.filter (fun t => strIncludes t.title.toLower q || strIncludes t.desc.toLower q)
    else list
  jsSort (taskCmp sortKey) list

/-- The view-filter predicate applied by step 1 of `visibleTasks`. -/
def viewPred (td filterV : String) (t : CTask) : Bool :=
  if filterV = "today" then isToday td t.due
  else if filterV = "pending" then t.status == "pending"
  else if filterV = "done" then t.status == "done"
  else if filterV ≠ "all" then t.category == filterV
  else true

/-- The priority-filter predicate applied by step 2 of `visibleTasks`. -/
def prioPred (priorityF : String) (t : CTask) : Bool :=
  if priorityF ≠ "all" then t.priority == priorityF else true

/-- The search predicate applied by step 3 of `visibleTasks`. -/
def searchPred (searchQ : String) (t : CTask) : Bool :=
  if searchQ ≠ "" then
    strIncludes t.title.toLower searchQ.toLower ||
      strIncludes t.desc.toLower searchQ.toLower
  else true

/-- A task of the spec data model (section 3): priority and status are in
their enums and `createdAt` is an actual number (not `NaN`). -/
def taskWF (t : CTask) : Bool :=
  (t.priority == "high" || t.priority == "medium" || t.priority == "low") &&
  (t.status == "pending" || t.status == "done") &&
  t.createdAt.isSome

/- ===================== aggregate counts (src/app.js 550-562) ===================== -/

/-- Total count: `tasks.value.length`. -/
def statTotal (tasks : List CTask) : Nat := tasks.length

/-- Due-today count: `tasks.value.filter(t=>isToday(t.due)).length`. -/
def statToday (td : String) (tasks : List CTask) : Nat :=
  (tasks.filter (fun t => isToday td t.due)).length

/-- Pending count: `tasks.value.filter(t=>t.status==='pending').length`. -/
def statPending (tasks : List CTask) : Nat :=
  (tasks.filter (fun t => t.status == "pending")).length

/-- Done count: `tasks.value.filter(t=>t.status==='done').length`. -/
def statDone (tasks : List CTask) : Nat :=
  (tasks.filter (fun t => t.status == "done")).length

/-- Overdue-and-pending count:
`tasks.value.filter(t=>t.status==='pending'&&isOverdue(t.due)).length`. -/
def statOverdue (td : String) (tasks : List CTask) : Nat :=
  (tasks.filter (fun t => t.status == "pending" && isOverdue td t.due)).length

/-- The four stat cards of `statsCards` (src/app.js lines 557-562), as
label/value pairs. -/
def statsCards (td : String) (tasks : List CTask) : List (String × Nat) :=
  [("总任务", statTotal tasks),
   ("待完成", statPending tasks),
   ("已完成", statDone tasks),
   ("已逾期", statOverdue td tasks)]

/-- The four navigation items of `navItems` (src/app.js lines 550-555), as
key/count pairs. -/
def navItems (td : String) (tasks : List CTask) : List (String × Nat) :=
  [("all", statTotal tasks),
   ("today", statToday td tasks),
   ("pending", statPending tasks),
   ("done", statDone tasks)]

/- ===================== HTTP client wrapper (src/app.js 10-32) ===================== -/

/-- Persistent client state: the `tf_token` and `tf_user` entries of
`localStorage`, the `tf_theme` entry, and `window.location.hash`. -/
structure ClientState where
  token : Option String
  user : Option String
  theme : String
  hash : String
deriving DecidableEq, Repr

/-- An HTTP response as consumed by `request`: its status and the
optional `message` field of its JSON body. -/
structure HttpResp where
  status : Nat
  message : Option String
deriving DecidableEq, Repr

/-- `res.ok` of the Fetch API: status in the range 200-299. -/
def respOk (r : HttpResp) : Bool := decide (200 ≤ r.status) && decide (r.status ≤ 299)

/-- `request(method, path, body)` from `src/app.js` (lines 10-32).  The
response `r` the server gives to the fetch is an input; the function
returns the updated client state together with either the parsed data or
the thrown error message:

  if (res.status === 401) {
    localStorage.removeItem('tf_token');
    localStorage.removeItem('tf_user');
    window.location.hash = '/login';
    throw new Error('登录已过期，请重新登录');
  }
  const data = await res.json();
  if (!res.ok) throw new Error(data.message || '请求失败');
  return data;
-/
def request (st : ClientState) (_method _path : String) (r : HttpResp) :
    ClientState × Except String HttpResp :=
  if r.status = 401 then
    ({ st with token := none, user := none, hash := "/login" },
     Except.error "登录已过期，请重新登录")
  else if respOk r = false then
    (st, Except.error (r.message.getD "请求失败"))
  else
    (st, Except.ok r)

/- ===================== view-model state and API handlers ===================== -/

/-- The reactive state of the tasks page: the task and category lists and
the four view controls. -/
structure AppState where
  tasks : List CTask
  categories : List Category
  filterV : String
  priorityF : String
  searchQ : String
  sortKey : String
deriving DecidableEq, Repr

/-- The derived `visibleTasks` computed property read against the page
state: it sorts a copy (`[...tasks.value]`) of the stored list and never
writes the store, so the state component is returned unchanged. -/
def visibleTasksState (st : AppState) (td : String) : List CTask × AppState :=
  (visibleTasks st.tasks st.filterV st.priorityF st.searchQ st.sortKey td, st)

/-- `toggleTaskApi` from `src/app.js` (lines 596-604).  The outcome of the
`PUT /api/tasks/{id}` request is an input: `Except.error` is the caught
network failure (the catch block only shows a message), `Except.ok` is
the server-returned wire task, which replaces the matching task by id. -/
def toggleTaskApi (st : AppState) (id : String) (outcome : Except String WireTask) :
    AppState :=
  match outcome with
  | .error _ => st
  | .ok updated =>
    match st.tasks.findIdx? (fun t => t.id == id) with
    | some idx => { st with tasks := st.tasks.set idx (normalizeTaskW updated) }
    | none => st

/-- `saveTaskApi` from `src/app.js` (lines 636-656), after validation has
passed: on edit, the server-returned task replaces the task with id
`editId`; on create it is prepended (`unshift`); a caught network failure
leaves the state alone. -/
def saveTaskApi (st : AppState) (isEdit : Bool) (editId : String)
    (outcome : Except String WireTask) : AppState :=
  match outcome with
  | .error _ => st
  | .ok w =>
    if isEdit then
      match st.tasks.findIdx? (fun t => t.id == editId) with
      | some idx => { st with tasks := st.tasks.set idx (normalizeTaskW w) }
      | none => st
    else
      { st with tasks := normalizeTaskW w :: st.tasks }

/-- The confirmed branch of `confirmDeleteTask` (src/app.js lines 606-616):
on success the task with the given id is removed locally. -/
def deleteTaskApi (st : AppState) (id : String) (outcome : Except String Unit) :
    AppState :=
  match outcome with
  | .error _ => st
  | .ok _ => { st with tasks := st.tasks.filter (fun t => t.id != id) }

/-- `saveCatApi` from `src/app.js` (lines 664-676), after validation: on
success the server-returned category is appended (`push`). -/
def saveCatApi (st : AppState) (outcome : Except String WireCategory) : AppState :=
  match outcome with
  | .error _ => st
  | .ok c => { st with categories := st.categories ++ [normalizeCat c] }

/-- `deleteCategoryApi` from `src/app.js` (lines 678-685):

  await request('DELETE', `/api/categories/{id}`);
  categories.value = categories.value.filter(c => c.id !== id);
  if (filter.value === id) filter.value = 'all';
-/
def deleteCategoryApi (st : AppState) (id : String) (outcome : Except String Unit) :
    AppState :=
  match outcome with
  | .error _ => st
  | .ok _ =>
    let st := { st with categories := st.categories.filter (fun c => c.id != id) }
    if st.filterV = id then { st with filterV := "all" } else st

/- ===================== concrete demonstration inputs ===================== -/

/-- A well-formed wire task used in concrete witnesses and counterexamples. -/
def wDemo : JS.JSTask :=
  { id := some (JSVal.vnum 7),
    title := some (JSVal.vstr "Buy milk"),
    desc := some (JSVal.vstr ""),
    category_id := some (JSVal.vnum 3),
    priority := some (JSVal.vstr "high"),
    status := some (JSVal.vstr "pending"),
    due_date := some (JSVal.vstr "2024-01-01"),
    created_at := some (JSVal.vstr "2024-01-01") }

/-- A wire task whose title carries surrounding whitespace. -/
def wPad : JS.JSTask :=
  { id := some (JSVal.vnum 1),
    title := some (JSVal.vstr " Buy milk "),
    desc := some (JSVal.vstr ""),
    category_id := some JSVal.vnull,
    priority := some (JSVal.vstr "high"),
    status := some (JSVal.vstr "pending"),
    due_date := some JSVal.vnull,
    created_at := some (JSVal.vstr "2024-01-01") }

/-- A small well-formed client task list for concrete witnesses. -/
def tasksDemo : List CTask :=
  [{ id := "1", title := "Buy milk", desc := "", category := "3",
     priority := "high", status := "pending", due := "2024-01-01",
     createdAt := some 1704067200000 },
   { id := "2", title := "Walk dog", desc := "in the park", category := "",
     priority := "medium", status := "done", due := "",
     createdAt := some 1704153600000 },
   { id := "3", title := "Write report", desc := "", category := "3",
     priority := "low", status := "pending", due := "2024-01-07",
     createdAt := some 1704240000000 }]

/-- A small app state for concrete witnesses. -/
def stDemo : AppState :=
  { tasks := tasksDemo,
    categories := [{ id := "3", name := "Work", color := "#6366f1" },
                   { id := "5", name := "Home", color := "#22c55e" }],
    filterV := "3", priorityF := "all", searchQ := "", sortKey := "created_desc" }

/- ===================== helper lemmas ===================== -/

theorem jsOr_of_truthy {v : JSVal} (h : v.truthy = true) (d : JSVal) :
    jsOr (some v) d = v := by
  simp only [jsOr, h, if_true]

theorem jsOr_of_not_truthy {v : JSVal} (h : v.truthy = false) (d : JSVal) :
    jsOr (some v) d = d := by
  simp only [jsOr, h, if_false]
  exact if_neg (by simp [h])

theorem jsOr_self (d : JSVal) : jsOr (some d) d = d := by
  simp only [jsOr]
  split <;> rfl

theorem jsOr_jsOr (x : Option JSVal) (d : JSVal) :
    jsOr (some (jsOr x d)) d = jsOr x d := by
  cases x with
  | none => exact jsOr_self d
  | some v =>
    cases h : v.truthy with
    | true => rw [jsOr_of_truthy h d, jsOr_of_truthy h d]
    | false => rw [jsOr_of_not_truthy h d]; exact jsOr_self d

theorem jsOr_empty_null (x : Option JSVal) :
    jsOr (some (jsOr x (JSVal.vstr ""))) JSVal.vnull = jsOr x JSVal.vnull := by
  cases x with
  | none => rfl
  | some v =>
    cases h : v.truthy with
    | true => rw [jsOr_of_truthy h, jsOr_of_truthy h]
    | false =>
      rw [jsOr_of_not_truthy h, jsOr_of_not_truthy h,
        jsOr_of_not_truthy (show (JSVal.vstr "").truthy = false from rfl)]

theorem strCmp_flip {a b : String} (h : strCmp a b ≤ 0) : 0 ≤ strCmp b a := by
  unfold strCmp at h ⊢
  rcases lt_trichotomy a b with h1 | h1 | h1
  · rw [if_neg (asymm h1), if_pos h1]; omega
  · subst h1; simp [lt_irrefl]
  · rw [if_neg (asymm h1), if_pos h1] at h; omega

theorem strCmp_nonneg_iff {a b : String} : 0 ≤ strCmp a b ↔ b ≤ a := by
  unfold strCmp
  rcases lt_trichotomy a b with h | h | h
  · rw [if_pos h]
    simp [not_le.mpr h]
  · subst h; simp
  · rw [if_neg (asymm h), if_pos h]
    simp [le_of_lt h]

theorem prioRank_isSome_of_wf {t : CTask} (h : taskWF t = true) :
    (prioRank t.priority).isSome = true := by
  unfold taskWF at h
  by_cases h1 : t.priority = "high"
  · simp [prioRank, h1]
  · by_cases h2 : t.priority = "medium"
    · simp [prioRank, h2]
    · by_cases h3 : t.priority = "low"
      · simp [prioRank, h3]
      · exfalso
        simp [h1, h2, h3] at h

theorem createdAt_isSome_of_wf {t : CTask} (h : taskWF t = true) :
    t.createdAt.isSome = true := by
  unfold taskWF at h
  cases hc : t.createdAt.isSome with
  | true => rfl
  | false => rw [hc, Bool.and_false] at h; exact absurd h (by simp)

theorem taskCmp_nonneg_rev (k : String) (a b : CTask) (h : taskCmp k a b ≤ 0) :
    0 ≤ taskCmp k b a := by
  unfold taskCmp at h ⊢
  split_ifs at h ⊢ <;>
    first
      | omega
      | exact strCmp_flip h
      | (rcases hA : a.createdAt with _ | na <;> rcases hB : b.createdAt with _ | nb <;>
          simp only [hA, hB, jsNumCmp] at h ⊢ <;> omega)
      | (rcases hA : prioRank a.priority with _ | na <;>
          rcases hB : prioRank b.priority with _ | nb <;>
          simp only [hA, hB, jsNumCmp] at h ⊢ <;> omega)

theorem taskCmp_trans_ok (k : String) (a b c : CTask)
    (ha : taskWF a = true) (hb : taskWF b = true) (hc : taskWF c = true)
    (h1 : 0 ≤ taskCmp k b a) (h2 : 0 ≤ taskCmp k c b) : 0 ≤ taskCmp k c a := by
  unfold taskCmp at h1 h2 ⊢
  split_ifs at h1 h2 ⊢ <;>
    first
      | omega
      | exact strCmp_nonneg_iff.mpr
          (le_trans (strCmp_nonneg_iff.mp h1) (strCmp_nonneg_iff.mp h2))
      | exact strCmp_nonneg_iff.mpr
          (le_trans (strCmp_nonneg_iff.mp h2) (strCmp_nonneg_iff.mp h1))
      | (obtain ⟨na, hna⟩ := Option.isSome_iff_exists.mp (createdAt_isSome_of_wf ha)
         obtain ⟨nb, hnb⟩ := Option.isSome_iff_exists.mp (createdAt_isSome_of_wf hb)
         obtain ⟨nc, hnc⟩ := Option.isSome_iff_exists.mp (createdAt_isSome_of_wf hc)
         simp only [hna, hnb, hnc, jsNumCmp] at h1 h2 ⊢
         omega)
      | (obtain ⟨na, hna⟩ := Option.isSome_iff_exists.mp (prioRank_isSome_of_wf ha)
         obtain ⟨nb, hnb⟩ := Option.isSome_iff_exists.mp (prioRank_isSome_of_wf hb)
         obtain ⟨nc, hnc⟩ := Option.isSome_iff_exists.mp (prioRank_isSome_of_wf hc)
         simp only [hna, hnb, hnc, jsNumCmp] at h1 h2 ⊢
         omega)

theorem pairwise_orderedInsert {α : Type} (r : α → α → Prop) [DecidableRel r]
    (ok : α → α → Prop) (P : α → Prop)
    (hyes : ∀ a b, P a → P b → r a b → ok a b)
    (hno : ∀ a b, P a → P b → ¬ r a b → ok b a)
    (htr : ∀ a b c, P a → P b → P c → ok a b → ok b c → ok a c)
    (x : α) (l : List α) (hx : P x) (hl : ∀ y ∈ l, P y) (h : l.Pairwise ok) :
    (l.orderedInsert r x).Pairwise ok := by
  induction l with
  | nil => simp
  | cons y ys ih =>
    rw [List.pairwise_cons] at h
    have hPy : P y := hl y (List.mem_cons_self y ys)
    rw [List.orderedInsert]
    by_cases hxy : r x y
    · rw [if_pos hxy]
      refine List.Pairwise.cons ?_ (List.Pairwise.cons h.1 h.2)
      intro z hz
      rcases List.mem_cons.mp hz with rfl | hz'
      · exact hyes x z hx hPy hxy
      · exact htr x y z hx hPy (hl z (List.mem_cons_of_mem _ hz'))
          (hyes x y hx hPy hxy) (h.1 z hz')
    · rw [if_neg hxy]
      refine List.Pairwise.cons ?_ (ih (fun u hu => hl u (List.mem_cons_of_mem _ hu)) h.2)
      intro z hz
      rcases (List.mem_orderedInsert r).mp hz with rfl | hz'
      · exact hno z y hx hPy hxy
      · exact h.1 z hz'

theorem pairwise_insertionSortJs {α : Type} (r : α → α → Prop) [DecidableRel r]
    (ok : α → α → Prop) (P : α → Prop)
    (hyes : ∀ a b, P a → P b → r a b → ok a b)
    (hno : ∀ a b, P a → P b → ¬ r a b → ok b a)
    (htr : ∀ a b c, P a → P b → P c → ok a b → ok b c → ok a c)
    (l : List α) (hl : ∀ x ∈ l, P x) :
    (l.insertionSort r).Pairwise ok := by
  induction l with
  | nil => simp
  | cons x xs ih =>
    rw [List.insertionSort]
    exact pairwise_orderedInsert r ok P hyes hno htr x _
      (hl x (List.mem_cons_self x xs))
      (fun y hy => hl y (List.mem_cons_of_mem _ ((List.mem_insertionSort r).mp hy)))
      (ih fun y hy => hl y (List.mem_cons_of_mem _ hy))

theorem visibleTasks_eq_sort_filter (tasks : List CTask)
    (filterV priorityF searchQ sortKey td : String) :
    visibleTasks tasks filterV priorityF searchQ sortKey td =
      jsSort (taskCmp sortKey)
        (tasks.filter (fun t =>
          viewPred td filterV t && prioPred priorityF t && searchPred searchQ t)) := by
  unfold visibleTasks
  split_ifs with h1 h2 h3 h4 h5 h6 <;>
    simp_all [viewPred, prioPred, searchPred, List.filter_filter, Bool.and_comm,
      Bool.and_assoc, Bool.and_left_comm]

theorem statPending_add_statDone (tasks : List CTask)
    (h : ∀ t ∈ tasks, t.status = "pending" ∨ t.status = "done") :
    statPending tasks + statDone tasks = statTotal tasks := by
  revert h
  induction tasks with
  | nil => intro _; rfl
  | cons t ts ih =>
    intro h
    have ht := h t (List.mem_cons_self t ts)
    have ih' := ih (fun x hx => h x (List.mem_cons_of_mem _ hx))
    unfold statPending statDone statTotal at ih' ⊢
    rcases ht with h1 | h1 <;> simp [List.filter_cons, h1] <;> omega

theorem statOverdue_le_statPending (td : String) (tasks : List CTask) :
    statOverdue td tasks ≤ statPending tasks := by
  induction tasks with
  | nil => exact Nat.le_refl 0
  | cons t ts ih =>
    unfold statOverdue statPending at ih ⊢
    by_cases h1 : (t.status == "pending") = true
    · by_cases h2 : isOverdue td t.due = true <;>
        simp [List.filter_cons, h1, h2] <;> omega
    · rw [Bool.not_eq_true] at h1
      simp [List.filter_cons, h1]
      omega

/- ===================== the claims ===================== -/

/-- C4: on any HTTP 401 response, independently of the request's method
and path, `request` clears the stored token and username, sets the hash
to the login route, preserves the rest of the client state (the theme),
and fails with the session-expired error. -/
theorem c4_request_401 (st : ClientState) (method path : String) (r : HttpResp)
    (h : r.status = 401) :
    request st method path r =
      ({ token := none, user := none, theme := st.theme, hash := "/login" },
       Except.error "登录已过期，请重新登录") := by
  unfold request
  rw [if_pos h]

/-- C4 witness: `c4_request_401` at a concrete logged-in state and a
concrete 401 response. -/
theorem c4_request_401_witness :
    ({ status := 401, message := none } : HttpResp).status = 401 ∧
    request { token := some "tok", user := some "admin", theme := "dark", hash := "/tasks" }
        "GET" "/api/tasks" { status := 401, message := none } =
      ({ token := none, user := none, theme := "dark", hash := "/login" },
       Except.error "登录已过期，请重新登录") :=
  ⟨rfl, c4_request_401 _ "GET" "/api/tasks" _ rfl⟩

/-- C5: over any task list whose statuses are in the {pending, done}
enum of the data model, the pending count plus the done count equals the
total count, and the overdue-and-pending count is at most the pending
count. -/
theorem c5_counts (td : String) (tasks : List CTask)
    (h : ∀ t ∈ tasks, t.status = "pending" ∨ t.status = "done") :
    statPending tasks + statDone tasks = statTotal tasks ∧
    statOverdue td tasks ≤ statPending tasks :=
  ⟨statPending_add_statDone tasks h, statOverdue_le_statPending td tasks⟩

/-- C5 witness: `c5_counts` on the concrete list `tasksDemo`. -/
theorem c5_counts_witness :
    (∀ t ∈ tasksDemo, t.status = "pending" ∨ t.status = "done") ∧
    (statPending tasksDemo + statDone tasksDemo = statTotal tasksDemo ∧
     statOverdue "2024-01-05" tasksDemo ≤ statPending tasksDemo) :=
  ⟨by decide, c5_counts "2024-01-05" tasksDemo (by decide)⟩

/-- C6: if the network request of any task or category mutation fails
(the caught branch of the handlers), the whole application state — in
particular the in-memory task and category lists — is left exactly as it
was: no mutation is partially applied. -/
theorem c6_error_frame (st : AppState) (id editId : String) (isEdit : Bool)
    (e : String) :
    toggleTaskApi st id (Except.error e) = st ∧
    saveTaskApi st isEdit editId (Except.error e) = st ∧
    deleteTaskApi st id (Except.error e) = st ∧
    saveCatApi st (Except.error e) = st ∧
    deleteCategoryApi st id (Except.error e) = st :=
  ⟨rfl, rfl, rfl, rfl, rfl⟩

/-- C8: a successful category deletion removes exactly the categories
with the deleted id from the list, resets the view filter to "all" when
the deleted id was the active filter and keeps it otherwise, and leaves
the task list untouched. -/
theorem c8_deleteCategory (st : AppState) (id : String) :
    (deleteCategoryApi st id (Except.ok ())).categories =
      st.categories.filter (fun c => c.id != id) ∧
    (∀ c ∈ (deleteCategoryApi st id (Except.ok ())).categories, c.id ≠ id) ∧
    (deleteCategoryApi st id (Except.ok ())).filterV =
      (if st.filterV = id then "all" else st.filterV) ∧
    (deleteCategoryApi st id (Except.ok ())).tasks = st.tasks := by
  unfold deleteCategoryApi
  by_cases h : st.filterV = id <;>
    simp [h, List.mem_filter]

/-- C9: the truthiness test `t.category_id ?` in `normalizeTask`
conflates the numeric id 0 with the absence of a category: a wire task
with `category_id = 0` is normalized to the empty (uncategorized)
category string, exactly as if `category_id` were null. -/
theorem c9_categoryZero (w : JS.JSTask) (h : w.category_id = some (JSVal.vnum 0)) :
    (JS.normalizeTask w).category = some (JSVal.vstr "") ∧
    JS.normalizeTask w =
      JS.normalizeTask { w with category_id := some JSVal.vnull } := by
  constructor
  · simp [JS.normalizeTask, h, jsTruthy, JSVal.truthy]
  · simp [JS.normalizeTask, h, jsTruthy, JSVal.truthy]

/-- C9 witness: `c9_categoryZero` at a concrete task whose
`category_id` is the number 0. -/
theorem c9_categoryZero_witness :
    ({ category_id := some (JSVal.vnum 0) } : JS.JSTask).category_id =
      some (JSVal.vnum 0) ∧
    ((JS.normalizeTask { category_id := some (JSVal.vnum 0) }).category =
        some (JSVal.vstr "") ∧
      JS.normalizeTask { category_id := some (JSVal.vnum 0) } =
        JS.normalizeTask
          { ({ category_id := some (JSVal.vnum 0) } : JS.JSTask) with
            category_id := some JSVal.vnull }) :=
  ⟨rfl, c9_categoryZero _ rfl⟩

/-- C10: computing the derived view returns the application state — in
particular the stored task list, in membership and order — unchanged:
the computation filters and sorts a copy and never writes the store. -/
theorem c10_visibleTasks_frame (st : AppState) (td : String) :
    (visibleTasksState st td).2 = st ∧
    (visibleTasksState st td).2.tasks = st.tasks ∧
    (visibleTasksState st td).1 =
      visibleTasks st.tasks st.filterV st.priorityF st.searchQ st.sortKey td :=
  ⟨rfl, rfl, rfl⟩

theorem vstr_truthy_of_ne {s : String} (h : s ≠ "") :
    (JSVal.vstr s).truthy = true := by
  have h2 : s.isEmpty = false := by
    cases h3 : s.isEmpty with
    | false => rfl
    | true => exact absurd ((String.isEmpty_iff s).mp h3) h
  simp [JSVal.truthy, h2]

/-- C1 (amended): round-tripping a wire task through `JS.normalizeTask`
and `JS.taskToPayload` preserves the priority and status strings (the
wire carries them as non-empty strings), maps the due date through the
null/empty-string convention (`null` and `""` both map to `null`, any
other due string is preserved), and maps the title to its trimmed form —
so the title itself is preserved exactly when it has no leading or
trailing whitespace, the amendment forced by `c1_roundtrip_cex`. -/
theorem c1_roundtrip_amended (w : JS.JSTask) (s ps st : String)
    (hti : w.title = some (JSVal.vstr s))
    (hp : w.priority = some (JSVal.vstr ps)) (hps : ps ≠ "")
    (hst : w.status = some (JSVal.vstr st)) (hsts : st ≠ "") :
    ∃ p, JS.taskToPayload (JS.normalizeTask w) = some p ∧
      p.title = some (JSVal.vstr (jsTrim s)) ∧
      p.priority = w.priority ∧
      p.status = w.status ∧
      p.due_date = some (jsOr w.due_date JSVal.vnull) := by
  simp only [JS.normalizeTask, JS.taskToPayload, hti]
  refine ⟨_, rfl, rfl, ?_, ?_, ?_⟩
  · rw [hp, jsOr_of_truthy (vstr_truthy_of_ne hps)]
  · rw [hst, jsOr_of_truthy (vstr_truthy_of_ne hsts)]
  · rw [jsOr_empty_null]

/-- C1 witness: the amended round-trip theorem applied to the concrete
wire task `wDemo`. -/
theorem c1_roundtrip_witness :
    wDemo.title = some (JSVal.vstr "Buy milk") ∧
    wDemo.priority = some (JSVal.vstr "high") ∧ "high" ≠ "" ∧
    wDemo.status = some (JSVal.vstr "pending") ∧ "pending" ≠ "" ∧
    (∃ p, JS.taskToPayload (JS.normalizeTask wDemo) = some p ∧
      p.title = some (JSVal.vstr (jsTrim "Buy milk")) ∧
      p.priority = wDemo.priority ∧
      p.status = wDemo.status ∧
      p.due_date = some (jsOr wDemo.due_date JSVal.vnull)) :=
  ⟨rfl, rfl, by decide, rfl, by decide,
    c1_roundtrip_amended wDemo "Buy milk" "high" "pending"
      rfl rfl (by decide) rfl (by decide)⟩

/-- C1 counterexample: for the wire task `wPad`, whose title is
" Buy milk " (a well-formed wire task: numeric id, non-empty title,
enum priority and status, null due date), the round trip produces the
title "Buy milk".  The title field is therefore not preserved, and the
change is not an instance of the null/empty-string convention, so the
claim as stated fails. -/
theorem c1_roundtrip_cex :
    Option.map (fun p => p.title) (JS.taskToPayload (JS.normalizeTask wPad)) =
      some (some (JSVal.vstr "Buy milk")) ∧
    wPad.title = some (JSVal.vstr " Buy milk ") ∧
    (some (JSVal.vstr "Buy milk") : Option JSVal) ≠ wPad.title := by
  refine ⟨by decide, rfl, by decide⟩

/-- C2 (amended): re-normalizing an already-normalized task is *not* a
no-op in general: it preserves the id, title, desc, priority and status
fields, but — because the normalized representation uses the field names
`category` / `due` / `createdAt` while `normalizeTask` reads the wire
names `category_id` / `due_date` / `created_at`, which are absent — it
resets the category and the due date to the empty string and `createdAt`
to `NaN`.  It is a no-op exactly on normalized tasks that already have
empty category, empty due and `NaN` createdAt. -/
theorem c2_renormalize_amended (w : JS.JSTask) :
    (JS.normalizeTask (JS.normalizeTask w)).id = (JS.normalizeTask w).id ∧
    (JS.normalizeTask (JS.normalizeTask w)).title = (JS.normalizeTask w).title ∧
    (JS.normalizeTask (JS.normalizeTask w)).desc = (JS.normalizeTask w).desc ∧
    (JS.normalizeTask (JS.normalizeTask w)).priority = (JS.normalizeTask w).priority ∧
    (JS.normalizeTask (JS.normalizeTask w)).status = (JS.normalizeTask w).status ∧
    (JS.normalizeTask (JS.normalizeTask w)).category = some (JSVal.vstr "") ∧
    (JS.normalizeTask (JS.normalizeTask w)).due = some (JSVal.vstr "") ∧
    (JS.normalizeTask (JS.normalizeTask w)).createdAt = some JSVal.vnan := by
  refine ⟨rfl, rfl, ?_, ?_, ?_, rfl, rfl, rfl⟩
  · show some (jsOr (some (jsOr w.desc (JSVal.vstr ""))) (JSVal.vstr "")) =
      some (jsOr w.desc (JSVal.vstr ""))
    rw [jsOr_jsOr]
  · show some (jsOr (some (jsOr w.priority (JSVal.vstr "medium"))) (JSVal.vstr "medium")) =
      some (jsOr w.priority (JSVal.vstr "medium"))
    rw [jsOr_jsOr]
  · show some (jsOr (some (jsOr w.status (JSVal.vstr "pending"))) (JSVal.vstr "pending")) =
      some (jsOr w.status (JSVal.vstr "pending"))
    rw [jsOr_jsOr]

/-- C2 counterexample: `JS.normalizeTask wDemo` is a task in the
normalized client representation (with category "3"), and re-normalizing
it changes it — the category collapses to the empty string — so
normalization is not idempotent as claimed. -/
theorem c2_renormalize_cex :
    JS.normalizeTask (JS.normalizeTask wDemo) ≠ JS.normalizeTask wDemo ∧
    (JS.normalizeTask (JS.normalizeTask wDemo)).category = some (JSVal.vstr "") ∧
    (JS.normalizeTask wDemo).category = some (JSVal.vstr "3") := by
  refine ⟨by decide, by decide, by decide⟩

/-- C7 (amended): `isSoon s now` holds iff `s` is a non-empty parseable
date whose start-of-day timestamp lies in the *closed* interval from
`now` to `now` plus two days — the upper bound is inclusive (`d <= 2` in
the source), not strict as the claim states; `c7_isSoon_cex` exhibits
the boundary.  An empty due string is never soon. -/
theorem c7_isSoon_amended (s : String) (nowMs : Int) :
    isSoon s nowMs = true ↔
      (s ≠ "" ∧ ∃ ms, dateOnlyMs s = some ms ∧
        nowMs ≤ ms ∧ ms ≤ nowMs + 2 * 86400000) := by
  unfold isSoon
  by_cases hs : s = ""
  · simp [hs]
  · rw [if_neg hs]
    cases h : dateOnlyMs s with
    | none => simp [h, hs]
    | some ms =>
      simp [h, hs]
      omega

/-- C7 counterexample: with `now = 0`, the due date "1970-01-03" starts
exactly at `now` plus two days (172800000 ms).  The code classifies it
as soon, but it is not strictly before `now + 2 days`, refuting the
claimed half-open interval. -/
theorem c7_isSoon_cex :
    isSoon "1970-01-03" 0 = true ∧
    dateOnlyMs "1970-01-03" = some (2 * 86400000) ∧
    ¬ ((2 * 86400000 : Int) < 0 + 2 * 86400000) :=
  ⟨by decide, by decide, by decide⟩

/-- C3: for any list of well-formed tasks and any view filter, priority
filter, search string and sort key, `visibleTasks` is a permutation of
the sublist of the full list satisfying the three active filter
predicates — so it contains exactly the tasks passing all filters and is
a subset of the full list — and no element is followed by one that the
selected comparator places strictly before it; in particular, under both
due-date sort keys every task with an empty due date comes after all
tasks with a due date. -/
theorem c3_visibleTasks_spec (tasks : List CTask)
    (filterV priorityF searchQ sortKey td : String)
    (hWF : ∀ t ∈ tasks, taskWF t = true) :
    List.Perm (visibleTasks tasks filterV priorityF searchQ sortKey td)
      (tasks.filter (fun t =>
        viewPred td filterV t && prioPred priorityF t && searchPred searchQ t)) ∧
    List.Pairwise (fun x y => 0 ≤ taskCmp sortKey y x)
      (visibleTasks tasks filterV priorityF searchQ sortKey td) ∧
    ((sortKey = "due_asc" ∨ sortKey = "due_desc") →
      List.Pairwise (fun x y => x.due = "" → y.due = "")
        (visibleTasks tasks filterV priorityF searchQ sortKey td)) := by
  rw [visibleTasks_eq_sort_filter]
  set l := tasks.filter (fun t =>
    viewPred td filterV t && prioPred priorityF t && searchPred searchQ t) with hldef
  have hlWF : ∀ t ∈ l, taskWF t = true :=
    fun t ht => hWF t (List.mem_of_mem_filter ht)
  have hpair : List.Pairwise (fun x y => 0 ≤ taskCmp sortKey y x)
      (jsSort (taskCmp sortKey) l) := by
    unfold jsSort
    exact pairwise_insertionSortJs (fun a b => taskCmp sortKey a b ≤ 0)
      (fun x y => 0 ≤ taskCmp sortKey y x) (fun t => taskWF t = true)
      (fun a b _ _ hr => taskCmp_nonneg_rev sortKey a b hr)
      (fun a b _ _ hr => le_of_lt (lt_of_not_le hr))
      (fun a b c pa pb pc hab hbc => taskCmp_trans_ok sortKey a b c pa pb pc hab hbc)
      l hlWF
  refine ⟨List.perm_insertionSort _ _, hpair, ?_⟩
  intro hk
  refine hpair.imp ?_
  intro x y hxy hx
  by_cases hy : y.due = ""
  · exact hy
  · exfalso
    rcases hk with rfl | rfl
    · have hv : taskCmp "due_asc" y x = -1 := by simp [taskCmp, hy, hx]
      rw [hv] at hxy
      omega
    · have hv : taskCmp "due_desc" y x = -1 := by simp [taskCmp, hy, hx]
      rw [hv] at hxy
      omega

/-- C3 witness: `c3_visibleTasks_spec` at a concrete task list and the
due-date ascending sort with all filters inactive. -/
theorem c3_visibleTasks_witness :
    (∀ t ∈ tasksDemo, taskWF t = true) ∧
    (List.Perm (visibleTasks tasksDemo "all" "all" "" "due_asc" "2024-01-05")
      (tasksDemo.filter (fun t =>
        viewPred "2024-01-05" "all" t && prioPred "all" t && searchPred "" t)) ∧
     List.Pairwise (fun x y => 0 ≤ taskCmp "due_asc" y x)
       (visibleTasks tasksDemo "all" "all" "" "due_asc" "2024-01-05") ∧
     (("due_asc" = "due_asc" ∨ "due_asc" = "due_desc") →
       List.Pairwise (fun x y => x.due = "" → y.due = "")
         (visibleTasks tasksDemo "all" "all" "" "due_asc" "2024-01-05"))) :=
  ⟨by decide,
    c3_visibleTasks_spec tasksDemo "all" "all" "" "due_asc" "2024-01-05" (by decide)⟩
